import Mathlib

/-!
Shallow embedding of the HT00004/teamalpha realism-comparison and validation
code (`src/data_realism_comparator.py`, `src/data_validator.py`) and proofs
settling the frozen claims about it.

A pandas dataframe is modelled as a `Table`: a list of column names and a list
of rows, each row a list of optional cells (`none` models NaN / missing).
Floating-point arithmetic in the source is modelled over `ℚ`; every numeric
constant in the source is an exact decimal, so `ℚ` reproduces the computation
exactly on inputs without NaN propagation.
-/

namespace TeamAlpha

set_option maxRecDepth 400000

/-- A single dataframe cell: either a numeric value or a string. -/
inductive Cell where
  | num (q : ℚ)
  | str (s : String)
deriving DecidableEq

/-- A cell slot: `none` models a missing value (NaN / None). -/
abbrev CellV := Option Cell

/-- A dataframe: column names plus rows of cells (row i, column j). -/
structure Table where
  cols : List String
  rows : List (List CellV)
deriving DecidableEq

/-- A table is well formed when every row has exactly one cell per column. -/
def Table.WellFormed (t : Table) : Prop :=
  ∀ r ∈ t.rows, r.length = t.cols.length

/-- Index of a column name in a column list (first match), as pandas
column lookup does. -/
def colIdx : List String → String → Option Nat
  | [], _ => none
  | c :: cs, name => if c = name then some 0 else (colIdx cs name).map (· + 1)

/-- Cell of a row at a column index (out of range reads as missing). -/
def getCell (r : List CellV) (i : Nat) : CellV := r.getD i none

/-- Membership test `name in df.columns`. -/
def hasCol (t : Table) (name : String) : Bool := t.cols.any (fun c => c == name)

/-- The source's column-synonym loop: first candidate present in the table. -/
def findColumn (t : Table) (candidates : List String) : Option String :=
  candidates.find? (fun c => hasCol t c)

/-- Column values of a named column, one entry per row. -/
def getColumn (t : Table) (name : String) : List CellV :=
  match colIdx t.cols name with
  | some i => t.rows.map (fun r => getCell r i)
  | none => []

/-- Dataframe column assignment `df[name] = vals`: overwrite the column when
the name exists, otherwise append a new column at the end. -/
def setColumn (t : Table) (name : String) (vals : List CellV) : Table :=
  match colIdx t.cols name with
  | some i => { t with rows := t.rows.zipWith (fun r v => r.set i v) vals }
  | none => { cols := t.cols ++ [name],
              rows := t.rows.zipWith (fun r v => r ++ [v]) vals }

/-- Number of non-null entries of a column (the denominator pandas uses for
`value_counts(normalize=True)`). -/
def nonNullCount (col : List CellV) : Nat := col.countP (fun v => v.isSome)

/-- Number of occurrences of a concrete cell value in a column. -/
def cellCount (col : List CellV) (c : Cell) : Nat := col.countP (fun v => v = some c)

/-- Model of `value_counts(normalize=True).to_dict().get(key, 0)`: the
fraction of non-null entries equal to `c`; when there are no non-null entries
the dict is empty and every lookup yields the default 0 (no division by zero
occurs in pandas either: an empty series produces an empty counts dict). -/
def freq (col : List CellV) (c : Cell) : ℚ :=
  if nonNullCount col = 0 then 0
  else (cellCount col c : ℚ) / (nonNullCount col : ℚ)

/-- String-keyed frequency lookup. -/
def freqS (col : List CellV) (s : String) : ℚ := freq col (.str s)

/-- Benchmark salary range for one sector. -/
structure SalaryRange where
  sector : String
  smin : ℚ
  smax : ℚ
  median : ℚ
deriving DecidableEq

/-- The fixed benchmark tables constructed by `load_uk_pension_benchmarks`. -/
structure Benchmarks where
  age_distribution : List (String × ℚ)
  gender_distribution : List (String × ℚ)
  sector_distribution : List (String × ℚ)
  salary_ranges : List SalaryRange
  geographic_distribution : List (String × ℚ)
  status_distribution : List (String × ℚ)
  years_service_patterns : List (String × ℚ)

/-- The UK pension benchmark constants from `load_uk_pension_benchmarks`. -/
def load_uk_pension_benchmarks : Benchmarks where
  age_distribution :=
    [("22-29", 0.20), ("30-39", 0.28), ("40-49", 0.26), ("50-59", 0.20), ("60-67", 0.06)]
  gender_distribution := [("M", 0.52), ("F", 0.47), ("O", 0.01)]
  sector_distribution :=
    [("Finance", 0.14), ("Manufacturing", 0.10), ("Public Service", 0.19),
     ("Healthcare", 0.13), ("Education", 0.09), ("Retail", 0.11), ("Other", 0.24)]
  salary_ranges :=
    [⟨"Finance", 25000, 150000, 45000⟩,
     ⟨"Manufacturing", 20000, 80000, 32000⟩,
     ⟨"Public Service", 18000, 85000, 35000⟩,
     ⟨"Healthcare", 22000, 90000, 38000⟩,
     ⟨"Education", 24000, 70000, 35000⟩,
     ⟨"Retail", 18000, 55000, 26000⟩,
     ⟨"Other", 20000, 100000, 35000⟩]
  geographic_distribution :=
    [("London", 0.22), ("South East", 0.18), ("North West", 0.12),
     ("West Midlands", 0.09), ("Yorkshire", 0.08), ("Scotland", 0.08),
     ("East", 0.07), ("South West", 0.06), ("East Midlands", 0.05),
     ("Wales", 0.03), ("North East", 0.02)]
  status_distribution := [("Active", 0.75), ("Deferred", 0.20), ("Pensioner", 0.05)]
  years_service_patterns :=
    [("0-5", 0.40), ("6-15", 0.35), ("16-25", 0.15), ("26-35", 0.08), ("36+", 0.02)]

/-- Result of one categorical comparison. The Python functions return a dict;
the fields here mirror the keys relevant to the claims. `error` models the
`"error"` key, which is present exactly in the column-not-found branch. -/
structure CategoryResult where
  accuracy_score : ℚ
  passes_test : Bool
  error : Option String
deriving DecidableEq

/-- The column-not-found result every categorical comparator returns. -/
def notFoundResult (msg : String) : CategoryResult :=
  { accuracy_score := 0, passes_test := false, error := some msg }

/-- Sum over the benchmark buckets of `abs (observed_fraction - expected)`,
the `total_diff` accumulator of the categorical comparators. -/
def totalVariation (col : List CellV) (bench : List (String × ℚ)) : ℚ :=
  (bench.map (fun bp => |freqS col bp.1 - bp.2|)).sum

/-- Shared body of the categorical comparators: clamp `1 - total_diff/2` at 0
and compare against the category threshold. -/
def categoricalResult (col : List CellV) (bench : List (String × ℚ))
    (threshold : ℚ) : CategoryResult :=
  let acc := max 0 (1 - totalVariation col bench / 2)
  { accuracy_score := acc, passes_test := decide (acc > threshold), error := none }

/-- Column synonyms accepted for the gender field. -/
def genderCandidates : List String := ["Gender", "gender", "Gender_Code", "sex"]

/-- `compare_gender_distribution`. -/
def compare_gender_distribution (t : Table) : CategoryResult :=
  match findColumn t genderCandidates with
  | none => notFoundResult "Gender column not found"
  | some c =>
      categoricalResult (getColumn t c) load_uk_pension_benchmarks.gender_distribution 0.9

/-- Column synonyms accepted for the sector field. -/
def sectorCandidates : List String := ["Sector", "sector", "Industry", "employment_sector"]

/-- `compare_sector_distribution`. -/
def compare_sector_distribution (t : Table) : CategoryResult :=
  match findColumn t sectorCandidates with
  | none => notFoundResult "Sector column not found"
  | some c =>
      categoricalResult (getColumn t c) load_uk_pension_benchmarks.sector_distribution 0.7

/-- Column synonyms accepted for the status field. -/
def statusCandidates : List String := ["Status", "status", "Member_Status", "member_status"]

/-- `compare_status_distribution`. -/
def compare_status_distribution (t : Table) : CategoryResult :=
  match findColumn t statusCandidates with
  | none => notFoundResult "Status column not found"
  | some c =>
      categoricalResult (getColumn t c) load_uk_pension_benchmarks.status_distribution 0.8

/-- `pd.cut` with bins `[21, 29, 39, 49, 59, 68]`, `include_lowest=True`:
values below 21 or above 68 (and non-numeric cells) bin to NaN. -/
def ageBin : CellV → CellV
  | some (.num q) =>
      if q < 21 then none
      else if q ≤ 29 then some (.str "22-29")
      else if q ≤ 39 then some (.str "30-39")
      else if q ≤ 49 then some (.str "40-49")
      else if q ≤ 59 then some (.str "50-59")
      else if q ≤ 68 then some (.str "60-67")
      else none
  | _ => none

/-- Column synonyms accepted for the age field. -/
def ageCandidates : List String := ["Age", "age", "Age_Years", "member_age"]

/-- `compare_age_distribution`. The Python method assigns the derived bucket
column `df['age_bin']` in place; the embedding returns the post-call table
alongside the result. -/
def compare_age_distribution (t : Table) : CategoryResult × Table :=
  match findColumn t ageCandidates with
  | none => (notFoundResult "Age column not found", t)
  | some c =>
      let binCol := (getColumn t c).map ageBin
      let t' := setColumn t "age_bin" binCol
      (categoricalResult binCol load_uk_pension_benchmarks.age_distribution 0.8, t')

/-- `pd.cut` with bins `[0, 5, 15, 25, 35, 50]`, `include_lowest=True`. -/
def serviceBin : CellV → CellV
  | some (.num q) =>
      if q < 0 then none
      else if q ≤ 5 then some (.str "0-5")
      else if q ≤ 15 then some (.str "6-15")
      else if q ≤ 25 then some (.str "16-25")
      else if q ≤ 35 then some (.str "26-35")
      else if q ≤ 50 then some (.str "36+")
      else none
  | _ => none

/-- Column synonyms accepted for the years-of-service field. -/
def serviceCandidates : List String :=
  ["YearsService", "years_service", "Years_Service", "service_years"]

/-- `compare_service_patterns`; assigns `df['service_bin']` in place. -/
def compare_service_patterns (t : Table) : CategoryResult × Table :=
  match findColumn t serviceCandidates with
  | none => (notFoundResult "Years of service column not found", t)
  | some c =>
      let binCol := (getColumn t c).map serviceBin
      let t' := setColumn t "service_bin" binCol
      (categoricalResult binCol load_uk_pension_benchmarks.years_service_patterns 0.7, t')

/-- Insert a rational into a sorted list (ascending). -/
def insertSorted (q : ℚ) : List ℚ → List ℚ
  | [] => [q]
  | x :: xs => if q ≤ x then q :: x :: xs else x :: insertSorted q xs

/-- Sort a list of rationals ascending. -/
def sortQ : List ℚ → List ℚ
  | [] => []
  | x :: xs => insertSorted x (sortQ xs)

/-- Pandas `Series.median` over the non-null values: middle element of the
sorted values, or the mean of the two middle elements for an even count.
The all-null case (where pandas yields NaN) is modelled as 0; no claim
evaluates the comparator on an all-null salary sector. -/
def medianQ (l : List ℚ) : ℚ :=
  let s := sortQ l
  let n := s.length
  if n = 0 then 0
  else if n % 2 = 1 then s.getD (n / 2) 0
  else (s.getD (n / 2 - 1) 0 + s.getD (n / 2) 0) / 2

/-- Minimum of the non-null values (0 when empty, see `medianQ`). -/
def minQ : List ℚ → ℚ
  | [] => 0
  | x :: xs => xs.foldl min x

/-- Maximum of the non-null values (0 when empty, see `medianQ`). -/
def maxQ : List ℚ → ℚ
  | [] => 0
  | x :: xs => xs.foldl max x

/-- Numeric value of a cell, `none` for strings and missing cells. -/
def numVal : CellV → Option ℚ
  | some (.num q) => some q
  | _ => none

/-- `median_accuracy = 1 - abs(synthetic_median - real_median) / real_median`. -/
def median_accuracy (synMed realMed : ℚ) : ℚ := 1 - |synMed - realMed| / realMed

/-- `range_accuracy = 1 - (abs(min_err)/real_min + abs(max_err)/real_max) / 2`. -/
def range_accuracy (synMin synMax realMin realMax : ℚ) : ℚ :=
  1 - (|synMin - realMin| / realMin + |synMax - realMax| / realMax) / 2

/-- `sector_accuracy = (median_accuracy + range_accuracy) / 2`. -/
def sector_accuracy (synMed synMin synMax : ℚ) (b : SalaryRange) : ℚ :=
  (median_accuracy synMed b.median + range_accuracy synMin synMax b.smin b.smax) / 2

/-- Per-sector entry of the salary analysis dict. -/
structure SectorSalary where
  synthetic_median : ℚ
  real_median : ℚ
  accuracy_score : ℚ
  median_difference : ℚ
  passes_test : Bool
deriving DecidableEq

/-- Result of `compare_salary_patterns`. Its dict stores the aggregate score
under the key `"overall_accuracy"`: it has no `"accuracy_score"` key, which
matters for the overall realism score (see `lookupAccuracyScore`). -/
structure SalaryResult where
  overall_accuracy : ℚ
  sector_analysis : List (String × SectorSalary)
  passes_test : Bool
  error : Option String
deriving DecidableEq

/-- Column synonyms accepted for the salary field. -/
def salaryCandidates : List String :=
  ["AnnualSalary", "annual_salary", "Salary", "salary", "Annual_Salary"]

/-- The per-sector loop of `compare_salary_patterns`: for each benchmark
sector with at least one observed row, accumulate the raw (unclamped)
`sector_accuracy` and record the sector analysis entry. -/
def salaryScan (t : Table) (secIdx salIdx : Nat) :
    List SalaryRange → ℚ × List (String × SectorSalary)
  | [] => (0, [])
  | b :: bs =>
      let rest := salaryScan t secIdx salIdx bs
      let rowsF := t.rows.filter (fun r => getCell r secIdx = some (.str b.sector))
      if rowsF.length > 0 then
        let vals := rowsF.filterMap (fun r => numVal (getCell r salIdx))
        let m := medianQ vals
        let mn := minQ vals
        let mx := maxQ vals
        let sAcc := sector_accuracy m mn mx b
        (sAcc + rest.1,
         (b.sector,
          { synthetic_median := m
            real_median := b.median
            accuracy_score := max 0 sAcc
            median_difference := |m - b.median|
            passes_test := decide (sAcc > 0.7) }) :: rest.2)
      else rest

/-- `compare_salary_patterns`. -/
def compare_salary_patterns (t : Table) : SalaryResult :=
  match findColumn t salaryCandidates, findColumn t sectorCandidates with
  | some sal, some sec =>
      match colIdx t.cols sec, colIdx t.cols sal with
      | some secIdx, some salIdx =>
          let scan := salaryScan t secIdx salIdx load_uk_pension_benchmarks.salary_ranges
          let overall := scan.1 / (load_uk_pension_benchmarks.salary_ranges.length : ℚ)
          { overall_accuracy := max 0 overall
            sector_analysis := scan.2
            passes_test := decide (overall > 0.7)
            error := none }
      | _, _ =>
          { overall_accuracy := 0, sector_analysis := [], passes_test := false,
            error := some "Salary or sector column not found" }
  | _, _ =>
      { overall_accuracy := 0, sector_analysis := [], passes_test := false,
        error := some "Salary or sector column not found" }

/-- The hard-coded prefix-to-region table of `compare_geographic_distribution`. -/
def postcode_to_region : List (String × String) :=
  [("EC1", "London"), ("SW1", "London"), ("W1A", "London"), ("E1", "London"),
   ("N1", "London"),
   ("M1", "North West"), ("M2", "North West"), ("M3", "North West"),
   ("B1", "West Midlands"), ("B2", "West Midlands"), ("B3", "West Midlands"),
   ("G1", "Scotland"), ("G2", "Scotland"),
   ("EH1", "Scotland"), ("EH2", "Scotland"),
   ("CF10", "Wales"), ("CF11", "Wales"),
   ("L1", "North West"), ("L2", "North West"),
   ("LS1", "Yorkshire"), ("LS2", "Yorkshire"),
   ("BS1", "South West"), ("BS2", "South West")]

/-- `df[postcode].str.split(' ').str[0]`: the text before the first space.
Non-string cells read as NaN under the `.str` accessor. -/
def postcodeArea : CellV → CellV
  | some (.str s) => some (.str (String.mk (s.data.takeWhile (fun c => c ≠ ' '))))
  | _ => none

/-- `Series.map` through the prefix-to-region dict: unmapped values become NaN. -/
def regionOf : CellV → CellV
  | some (.str s) =>
      match postcode_to_region.find? (fun p => p.1 = s) with
      | some p => some (.str p.2)
      | none => none
  | _ => none

/-- Distinct string values observed in a column (the keys of its
`value_counts` dict), in first-occurrence order. -/
def distinctStrs (col : List CellV) : List String :=
  (col.filterMap (fun v => match v with
    | some (.str s) => some s
    | _ => none)).dedup

/-- Column synonyms accepted for the postcode field. -/
def postcodeCandidates : List String := ["Postcode", "postcode", "PostCode", "postal_code"]

/-- The derived region column of the geographic comparator for a given
postcode column name. -/
def regionColumn (t : Table) (c : String) : List CellV :=
  ((getColumn t c).map postcodeArea).map regionOf

/-- `common_regions`: observed regions that also appear in the benchmark. -/
def geoCommon (t : Table) (c : String) : List String :=
  (distinctStrs (regionColumn t c)).filter
    (fun s => load_uk_pension_benchmarks.geographic_distribution.any (fun p => p.1 = s))

/-- Benchmark proportion of a region. -/
def geoBenchVal (s : String) : ℚ :=
  ((load_uk_pension_benchmarks.geographic_distribution.find? (fun p => p.1 = s)).map
    (fun p => p.2)).getD 0

/-- The geographic `total_diff`: summed over `common_regions` only. -/
def geoTotalDiff (t : Table) (c : String) : ℚ :=
  ((geoCommon t c).map (fun s => |freqS (regionColumn t c) s - geoBenchVal s|)).sum

/-- `compare_geographic_distribution`. Assigns the derived columns
`df['postcode_area']` and `df['region']` in place; returns the post-call
table. Note the accuracy normalization divides by `len(common_regions)`,
not by 2. -/
def compare_geographic_distribution (t : Table) : CategoryResult × Table :=
  match findColumn t postcodeCandidates with
  | none =>
      ({ accuracy_score := 0, passes_test := false,
         error := some "Postcode column not found" }, t)
  | some c =>
      let area := (getColumn t c).map postcodeArea
      let t1 := setColumn t "postcode_area" area
      let t2 := setColumn t1 "region" (area.map regionOf)
      let common := geoCommon t c
      let acc :=
        if common.length > 0
        then max 0 (1 - geoTotalDiff t c / (common.length : ℚ))
        else 0
      ({ accuracy_score := acc, passes_test := decide (acc > 0.6), error := none }, t2)

/-- The `detailed_comparisons` dict of a full run. -/
structure DetailedComparisons where
  age : CategoryResult
  gender : CategoryResult
  sector : CategoryResult
  salary : SalaryResult
  geographic : CategoryResult
  status : CategoryResult
  service : CategoryResult
deriving DecidableEq

/-- The fixed weights of `calculate_overall_realism_score`. -/
def weights : List (String × ℚ) :=
  [("age", 0.20), ("gender", 0.15), ("sector", 0.20), ("salary", 0.25),
   ("geographic", 0.10), ("status", 0.10)]

/-- Value of the `"accuracy_score"` key of a category's result dict, when the
dict has that key. The dicts returned for age, gender, sector, geographic,
status and service always carry `"accuracy_score"`; the dict returned by
`compare_salary_patterns` carries its score under `"overall_accuracy"` and has
no `"accuracy_score"` key, so the lookup fails for the salary category. -/
def lookupAccuracyScore (cs : DetailedComparisons) : String → Option ℚ
  | "age" => some cs.age.accuracy_score
  | "gender" => some cs.gender.accuracy_score
  | "sector" => some cs.sector.accuracy_score
  | "salary" => none
  | "geographic" => some cs.geographic.accuracy_score
  | "status" => some cs.status.accuracy_score
  | "service" => some cs.service.accuracy_score
  | _ => none

/-- `calculate_overall_realism_score`: weighted sum over the categories whose
result dict has an `"accuracy_score"` key, divided by their weight sum. -/
def calculate_overall_realism_score (cs : DetailedComparisons) : ℚ :=
  let step := weights.foldl
    (fun acc wc =>
      match lookupAccuracyScore cs wc.1 with
      | some s => (acc.1 + s * wc.2, acc.2 + wc.2)
      | none => acc)
    ((0 : ℚ), (0 : ℚ))
  if step.2 > 0 then step.1 / step.2 else 0

/-- Salary-column cleaning performed by `compare_synthetic_vs_real` when an
`AnnualSalary` column exists: strip currency symbols and separators and
coerce to a number (`errors='coerce'` turns unparseable text into NaN).
Numeric cells round-trip unchanged through `astype(str)` plus `to_numeric`;
integer-valued strings are parsed, other text becomes NaN. -/
def cleanCurrency : CellV → CellV
  | some (.num q) => some (.num q)
  | some (.str s) =>
      let cs := s.data.filter (fun c => c ≠ '£' ∧ c ≠ ',' ∧ c ≠ '$')
      if cs ≠ [] ∧ cs.all (fun c => '0' ≤ c ∧ c ≤ '9')
      then some (.num ((cs.foldl (fun n c => n * 10 + (c.toNat - 48)) 0 : Nat) : ℚ))
      else none
  | none => none

/-- `df.dropna(subset=...)`: keep the rows non-null in every subset column. -/
def dropna (t : Table) (subset : List String) : Table :=
  let idxs := subset.filterMap (colIdx t.cols)
  { t with rows := t.rows.filter (fun r => idxs.all (fun i => (getCell r i).isSome)) }

/-- The data-preparation steps of `compare_synthetic_vs_real` after the CSV
load: currency cleaning of `AnnualSalary`, then `dropna` on
`['Age','Gender','Sector']` when all three exist, otherwise on the first
three columns. -/
def prepare (t : Table) : Table :=
  let t1 :=
    if hasCol t "AnnualSalary"
    then setColumn t "AnnualSalary" ((getColumn t "AnnualSalary").map cleanCurrency)
    else t
  let subset :=
    if (["Age", "Gender", "Sector"].all (fun c => hasCol t1 c))
    then ["Age", "Gender", "Sector"]
    else t1.cols.take 3
  dropna t1 subset

/-- Result of a full `compare_synthetic_vs_real` run (after the CSV load). -/
structure RunResult where
  overall_realism_score : ℚ
  detailed_comparisons : DetailedComparisons
deriving DecidableEq

/-- The comparison pipeline of `compare_synthetic_vs_real` on a loaded table:
the seven category comparisons in source order, threading the in-place
mutations of the age, geographic and service comparators through the shared
dataframe, then the weighted overall score. -/
def compare_synthetic_vs_real (t : Table) : RunResult :=
  let t0 := prepare t
  let ageR := compare_age_distribution t0
  let t1 := ageR.2
  let gender := compare_gender_distribution t1
  let sector := compare_sector_distribution t1
  let salary := compare_salary_patterns t1
  let geoR := compare_geographic_distribution t1
  let t2 := geoR.2
  let status := compare_status_distribution t2
  let serviceR := compare_service_patterns t2
  let cs : DetailedComparisons :=
    { age := ageR.1, gender := gender, sector := sector, salary := salary,
      geographic := geoR.1, status := status, service := serviceR.1 }
  { overall_realism_score := calculate_overall_realism_score cs,
    detailed_comparisons := cs }

/-!
Embedding of `PensionDataValidator` (`src/data_validator.py`). The validator
addresses fixed column names, so its dataset is modelled as a typed record
per row. Numeric fields are `Option ℚ` because the loader coerces them with
`errors='coerce'` (unparseable text becomes NaN); a comparison involving NaN
is false in pandas, which `nanLe` / `nanBetween` reproduce.
-/

/-- One row of the validator's dataframe. -/
structure VRow where
  memberId : String
  postcode : String
  gender : String
  age : Option ℚ
  sector : String
  annualSalary : Option ℚ
  yearsService : Option ℚ
  status : String
  jobGrade : String
deriving DecidableEq

/-- Element-wise `<=` between possibly-NaN values: false when either is NaN. -/
def nanLe (a b : Option ℚ) : Bool :=
  match a, b with
  | some x, some y => decide (x ≤ y)
  | _, _ => false

/-- Element-wise `Series.between(lo, hi)` (inclusive); false on NaN. -/
def nanBetween (a : Option ℚ) (lo hi : ℚ) : Bool :=
  match a with
  | some x => decide (lo ≤ x ∧ x ≤ hi)
  | none => false

/-- `value_counts(normalize=True).get(s, 0)` over a list of strings. -/
def strFreq (vals : List String) (s : String) : ℚ :=
  if vals.length = 0 then 0
  else (vals.countP (fun v => v = s) : ℚ) / (vals.length : ℚ)

/-- Gender check of `check_distributions`: observed shares within tolerance
of M=0.49, F=0.50, O=0.01. -/
def gender_distribution_check (d : List VRow) : Bool :=
  let g := d.map (fun r => r.gender)
  decide (|strFreq g "M" - 0.49| < 0.05) &&
  decide (|strFreq g "F" - 0.50| < 0.05) &&
  decide (|strFreq g "O" - 0.01| < 0.01)

/-- The four intervals of `value_counts(bins=[22,35,45,55,75])`. -/
def age_bins_4 : List (ℚ × ℚ) := [(22, 35), (35, 45), (45, 55), (55, 75)]

/-- Age check of `check_distributions`: every age in [22, 75], and
`value_counts(bins=...).index.size == 4`. `value_counts` with explicit bins
returns one entry per interval, empty intervals included, so the index size
is the interval count. -/
def age_distribution_check (d : List VRow) : Bool :=
  d.all (fun r => nanBetween r.age 22 75) && decide (age_bins_4.length = 4)

/-- The validator's own expected sector distribution (it differs from the
comparator's benchmark). -/
def expected_sector_dist : List (String × ℚ) :=
  [("Finance", 0.15), ("Manufacturing", 0.12), ("Public Service", 0.18),
   ("Healthcare", 0.13), ("Education", 0.10), ("Retail", 0.08), ("Other", 0.24)]

/-- Sector check of `check_distributions`: every observed share within 0.05
of the expected one. -/
def sector_distribution_check (d : List VRow) : Bool :=
  let s := d.map (fun r => r.sector)
  expected_sector_dist.all (fun p => decide (|strFreq s p.1 - p.2| < 0.05))

/-- The per-sector salary bounds of `validate_business_rules`. -/
def salary_rules : List (String × ℚ × ℚ) :=
  [("Finance", 25000, 120000), ("Public Service", 20000, 80000),
   ("Manufacturing", 18000, 75000), ("Healthcare", 22000, 85000)]

/-- Salary-range rule: within each listed sector every salary lies in its
bounds. -/
def salary_ranges_check (d : List VRow) : Bool :=
  salary_rules.all (fun rule =>
    (d.filter (fun r => r.sector = rule.1)).all
      (fun r => nanBetween r.annualSalary rule.2.1 rule.2.2))

/-- Service-years rule of `validate_business_rules`:
`(data['YearsService'] <= (data['Age'] - 18)).all()`. -/
def service_years_check (d : List VRow) : Bool :=
  d.all (fun r => nanLe r.yearsService (r.age.map (fun a => a - 18)))

/-- Status rule: every status is one of Active, Deferred, Pensioner. -/
def status_values_check (d : List VRow) : Bool :=
  d.all (fun r => ["Active", "Deferred", "Pensioner"].contains r.status)

/-- ASCII digit test. -/
def isDigitChar (c : Char) : Bool := '0' ≤ c && c ≤ '9'

/-- ASCII uppercase-letter test. -/
def isUpperChar (c : Char) : Bool := 'A' ≤ c && c ≤ 'Z'

/-- Full match of the member-id pattern `^MB\d{8}$`. -/
def memberIdMatch (s : String) : Bool :=
  match s.data with
  | 'M' :: 'B' :: rest => rest.length = 8 && rest.all isDigitChar
  | _ => false

/-- Match of `\d[A-Z]{2}$`, the tail of the postcode pattern. -/
def postcodeTail : List Char → Bool
  | [d, a, b] => isDigitChar d && isUpperChar a && isUpperChar b
  | _ => false

/-- Match of `[A-Z\d]? ?\d[A-Z]{2}$` after the leading letters and digit. -/
def postcodeAfterDigit (cs : List Char) : Bool :=
  postcodeTail cs ||
  (match cs with
   | c :: rest =>
       ((isUpperChar c || isDigitChar c) &&
         (postcodeTail rest ||
          (match rest with
           | ' ' :: rest2 => postcodeTail rest2
           | _ => false))) ||
       (c = ' ' && postcodeTail rest)
   | [] => false)

/-- Full match of the UK postcode pattern
`^[A-Z]{1,2}\d[A-Z\d]? ?\d[A-Z]{2}$` used by `check_data_integrity`. -/
def postcodeFullMatch (s : String) : Bool :=
  match s.data with
  | a :: rest =>
      isUpperChar a &&
      ((match rest with
        | d :: rest2 => isDigitChar d && postcodeAfterDigit rest2
        | [] => false) ||
       (match rest with
        | b :: d :: rest2 => isUpperChar b && isDigitChar d && postcodeAfterDigit rest2
        | _ => false))
  | [] => false

/-- Member-id format rule: every id matches `^MB\d{8}$`. -/
def member_id_format_check (d : List VRow) : Bool :=
  d.all (fun r => memberIdMatch r.memberId)

/-- Postcode format rule: every postcode matches the UK pattern. -/
def postcode_format_check (d : List VRow) : Bool :=
  d.all (fun r => postcodeFullMatch r.postcode)

/-- No-duplicates rule: `not data['MemberID'].duplicated().any()`. -/
def no_duplicates_check (d : List VRow) : Bool :=
  decide (d.map (fun r => r.memberId)).Nodup

/-- First character equals a given letter (`str.startswith` on a one-letter
needle). -/
def startsWithChar (s : String) (c : Char) : Bool :=
  match s.data with
  | x :: _ => x = c
  | [] => false

/-- The major-city initials of `validate_geographic_distribution`. -/
def major_cities : List Char := ['L', 'M', 'B', 'S', 'N', 'E', 'W', 'G']

/-- Geographic rule: every major-city initial starts some observed two-char
postcode area. -/
def major_cities_covered_check (d : List VRow) : Bool :=
  let areas := (d.map (fun r => String.mk (r.postcode.data.take 2))).dedup
  major_cities.all (fun c => areas.any (fun a => startsWithChar a c))

/-- Lower-case a string character-wise (`str.lower()`). -/
def lowerStr (s : String) : String := String.mk (s.data.map Char.toLower)

/-- Exact list-as-sequence starts-with test. -/
def isPrefixList : List Char → List Char → Bool
  | [], _ => true
  | _ :: _, [] => false
  | a :: as, b :: bs => a = b && isPrefixList as bs

/-- Contiguous-substring test (`needle in haystack` on strings). -/
def containsSub (n : List Char) : List Char → Bool
  | [] => isPrefixList n []
  | c :: t => isPrefixList n (c :: t) || containsSub n t

/-- Grade words looked for in Finance job titles. -/
def finance_grades : List String := ["Analyst", "Senior", "Manager", "Director", "Consultant"]

/-- Grade words looked for in Public Service job titles. -/
def public_grades : List String := ["Grade", "Officer", "Principal", "Senior"]

/-- Finance-grades rule: some Finance row's job title contains one of the
grade words (case-insensitively). -/
def finance_grades_check (d : List VRow) : Bool :=
  (d.filter (fun r => r.sector = "Finance")).any (fun r =>
    finance_grades.any (fun g => containsSub (lowerStr g).data (lowerStr r.jobGrade).data))

/-- Public-service-grades rule. -/
def public_grades_check (d : List VRow) : Bool :=
  (d.filter (fun r => r.sector = "Public Service")).any (fun r =>
    public_grades.any (fun g => containsSub (lowerStr g).data (lowerStr r.jobGrade).data))

/-- All twelve rule checks of `validate_all`, in the order the summary
flattens `validation_results`. -/
def allChecks (d : List VRow) : List (String × Bool) :=
  [("gender_distribution", gender_distribution_check d),
   ("age_distribution", age_distribution_check d),
   ("sector_distribution", sector_distribution_check d),
   ("salary_ranges", salary_ranges_check d),
   ("service_years", service_years_check d),
   ("status_values", status_values_check d),
   ("member_id_format", member_id_format_check d),
   ("postcode_format", postcode_format_check d),
   ("no_duplicates", no_duplicates_check d),
   ("major_cities_covered", major_cities_covered_check d),
   ("finance_grades", finance_grades_check d),
   ("public_service_grades", public_grades_check d)]

/-- Names of the failed rules. -/
def failedChecks (d : List VRow) : List String :=
  ((allChecks d).filter (fun p => !p.2)).map (fun p => p.1)

/-- `total_checks` of `print_summary`. -/
def totalChecks (d : List VRow) : Nat := (allChecks d).length

/-- `passed_checks` of `print_summary`. -/
def passedChecks (d : List VRow) : Nat := (allChecks d).countP (fun p => p.2)

/-- The summary success rate `passed_checks / total_checks`. -/
def successRate (d : List VRow) : ℚ :=
  (passedChecks d : ℚ) / (totalChecks d : ℚ)

/-!
Spec-side definitions. Each follows the wording of a claim (not the source)
and exists only to be compared against the embedded code.
-/

/-- Claimed overall score (claim C1's formula): weighted average over all six
weighted categories, salary included with weight 0.25 using the salary
comparison's aggregate accuracy, normalized by the weights present (all six,
summing to 1). -/
def claimedOverallScore (cs : DetailedComparisons) : ℚ :=
  (0.20 * cs.age.accuracy_score + 0.15 * cs.gender.accuracy_score +
   0.20 * cs.sector.accuracy_score + 0.25 * cs.salary.overall_accuracy +
   0.10 * cs.geographic.accuracy_score + 0.10 * cs.status.accuracy_score) /
  (0.20 + 0.15 + 0.20 + 0.25 + 0.10 + 0.10)

/-- Claimed geographic accuracy (claim C2's formula): the same divide-by-2
total-variation normalization the other categorical categories use. -/
def claimedGeoScore (t : Table) (c : String) : ℚ :=
  max 0 (1 - geoTotalDiff t c / 2)

/-- Claimed service-years rule (claim C6's wording): the row satisfies
`years_of_service ≤ age - 21`. -/
def claimedServiceOK (r : VRow) : Prop :=
  ∀ y a : ℚ, r.yearsService = some y → r.age = some a → y ≤ a - 21

/-!
Concrete inputs used by the counterexamples and witnesses.
-/

/-- A 100-row table whose gender column is exactly 49% M, 50% F, 1% O. -/
def genderTable : Table :=
  { cols := ["Gender"],
    rows := List.replicate 49 [some (.str "M")] ++
            List.replicate 50 [some (.str "F")] ++
            [[some (.str "O")]] }

/-- A table with a gender column and zero rows. -/
def emptyGenderTable : Table := { cols := ["Gender"], rows := [] }

/-- A table with gender and status columns and zero rows. -/
def emptyGenderStatusTable : Table := { cols := ["Gender", "Status"], rows := [] }

/-- A one-row table with only an age column. -/
def ageOnlyTable : Table := { cols := ["Age"], rows := [[some (.num 25)]] }

/-- A one-row table whose single postcode maps to exactly one benchmark
region (London). -/
def geoOneTable : Table := { cols := ["Postcode"], rows := [[some (.str "EC1 1AA")]] }

/-- A two-row table carrying every column the comparator recognizes. -/
def fullTable : Table :=
  { cols := ["Age", "Gender", "Sector", "AnnualSalary", "Postcode", "Status",
             "YearsService"],
    rows :=
      [[some (.num 25), some (.str "M"), some (.str "Finance"), some (.num 45000),
        some (.str "EC1 1AA"), some (.str "Active"), some (.num 3)],
       [some (.num 45), some (.str "F"), some (.str "Retail"), some (.num 26000),
        some (.str "M1 1AA"), some (.str "Deferred"), some (.num 20)]] }

/-- The same two rows as `fullTable` but with no sector column. -/
def noSectorTable : Table :=
  { cols := ["Age", "Gender", "AnnualSalary", "Postcode", "Status", "YearsService"],
    rows :=
      [[some (.num 25), some (.str "M"), some (.num 45000),
        some (.str "EC1 1AA"), some (.str "Active"), some (.num 3)],
       [some (.num 45), some (.str "F"), some (.num 26000),
        some (.str "M1 1AA"), some (.str "Deferred"), some (.num 20)]] }

/-- A validator row that satisfies the code's `years <= age - 18` rule but
not the claimed `years <= age - 21` rule. -/
def slackRow : VRow :=
  { memberId := "MB00000001", postcode := "EC1 1AA", gender := "M",
    age := some 40, sector := "Finance", annualSalary := some 45000,
    yearsService := some 20, status := "Active", jobGrade := "Analyst" }

/-- Member id `MB000000nn` for an index below 100. -/
def mkMemberId (n : Nat) : String :=
  String.mk ['M', 'B', '0', '0', '0', '0', '0', '0',
             Char.ofNat (48 + n / 10 % 10), Char.ofNat (48 + n % 10)]

/-- Row `n` of the 100-row validator scenario dataset: gender split 49/50/1,
sector split matching `expected_sector_dist`, valid salaries and service
years, one malformed postcode (row 8) and one duplicated member id
(row 99 reuses row 98's). -/
def scenarioRow (n : Nat) : VRow :=
  { memberId := if n = 99 then mkMemberId 98 else mkMemberId n
    postcode :=
      if n = 0 then "L1 1AA" else if n = 1 then "M1 1AA"
      else if n = 2 then "B1 1AA" else if n = 3 then "S1 1AA"
      else if n = 4 then "N1 1AA" else if n = 5 then "E1 1AA"
      else if n = 6 then "W1 1AA" else if n = 7 then "G1 1AA"
      else if n = 8 then "XXXX" else "L1 1AA"
    gender := if n < 49 then "M" else if n < 99 then "F" else "O"
    age := some 40
    sector :=
      if n < 15 then "Finance" else if n < 27 then "Manufacturing"
      else if n < 45 then "Public Service" else if n < 58 then "Healthcare"
      else if n < 68 then "Education" else if n < 76 then "Retail"
      else "Other"
    annualSalary := some 30000
    yearsService := some 1
    status := "Active"
    jobGrade :=
      if n < 15 then "Analyst"
      else if 27 ≤ n ∧ n < 45 then "Officer"
      else "Staff" }

/-- The 100-row validator scenario dataset of claim C8. -/
def scenarioData : List VRow := (List.range 100).map scenarioRow

/-!
Helper lemmas about the table model, shared by several claims.
-/

lemma hasCol_iff {t : Table} {name : String} : hasCol t name = true ↔ name ∈ t.cols := by
  simp [hasCol, List.any_eq_true, beq_iff_eq]

lemma hasCol_congr {t t' : Table} (h : t.cols = t'.cols) (name : String) :
    hasCol t name = hasCol t' name := by
  simp [hasCol, h]

lemma colIdx_isSome_iff {cs : List String} {name : String} :
    (colIdx cs name).isSome = true ↔ name ∈ cs := by
  induction cs with
  | nil => simp [colIdx]
  | cons c cs ih =>
      by_cases hc : c = name
      · simp [colIdx, hc]
      · simp [colIdx, hc, Option.isSome_map, ih, Ne.symm hc]

lemma colIdx_eq_none_of_not_mem {cs : List String} {name : String} (h : name ∉ cs) :
    colIdx cs name = none := by
  cases hi : colIdx cs name with
  | none => rfl
  | some i =>
      exact absurd (colIdx_isSome_iff.mp (by simp [hi])) h

lemma colIdx_lt_length {cs : List String} {name : String} {i : Nat}
    (h : colIdx cs name = some i) : i < cs.length := by
  induction cs generalizing i with
  | nil => simp [colIdx] at h
  | cons c cs ih =>
      by_cases hc : c = name
      · subst hc
        simp [colIdx] at h
        simp only [List.length_cons]
        omega
      · simp only [colIdx, if_neg hc, Option.map_eq_some'] at h
        obtain ⟨j, hj, rfl⟩ := h
        have := ih hj
        simp only [List.length_cons]
        omega

lemma colIdx_append_left {cs : List String} (ds : List String) {name : String}
    (h : name ∈ cs) : colIdx (cs ++ ds) name = colIdx cs name := by
  induction cs with
  | nil => simp at h
  | cons c cs ih =>
      by_cases hc : c = name
      · simp [colIdx, hc]
      · have h' : name ∈ cs := by
          rcases List.mem_cons.mp h with h | h
          · exact absurd h.symm hc
          · exact h
        simp [colIdx, hc, ih h']

lemma findColumn_congr {t t' : Table} (h : t.cols = t'.cols) (cands : List String) :
    findColumn t cands = findColumn t' cands := by
  unfold findColumn
  induction cands with
  | nil => rfl
  | cons c cs ih => simp [List.find?, hasCol_congr h c, ih]

lemma findColumn_mem {t : Table} {cands : List String} {c : String}
    (h : findColumn t cands = some c) : c ∈ t.cols := by
  have := List.find?_some h
  exact hasCol_iff.mp this

lemma findColumn_none_iff {t : Table} {cands : List String} :
    findColumn t cands = none ↔ ∀ c ∈ cands, c ∉ t.cols := by
  unfold findColumn
  rw [List.find?_eq_none]
  constructor
  · intro h c hc hmem
    exact absurd (hasCol_iff.mpr hmem) (by simpa using h c hc)
  · intro h c hc
    simp only [Bool.not_eq_true]
    cases hcol : hasCol t c with
    | false => rfl
    | true => exact absurd (hasCol_iff.mp hcol) (h c hc)

lemma setColumn_cols_of_mem {t : Table} {name : String} (h : name ∈ t.cols)
    (vals : List CellV) : (setColumn t name vals).cols = t.cols := by
  have := colIdx_isSome_iff.mpr h
  cases hi : colIdx t.cols name with
  | none => simp [hi] at this
  | some i => simp [setColumn, hi]

lemma setColumn_cols_of_not_mem {t : Table} {name : String} (h : name ∉ t.cols)
    (vals : List CellV) : (setColumn t name vals).cols = t.cols ++ [name] := by
  simp [setColumn, colIdx_eq_none_of_not_mem h]

lemma setColumn_cols_cases (t : Table) (name : String) (vals : List CellV) :
    (setColumn t name vals).cols = t.cols ∨
    (setColumn t name vals).cols = t.cols ++ [name] := by
  by_cases h : name ∈ t.cols
  · exact Or.inl (setColumn_cols_of_mem h vals)
  · exact Or.inr (setColumn_cols_of_not_mem h vals)

lemma findColumn_none_append {s' s : Table} {cands extra : List String}
    (hcols : s'.cols = s.cols ++ extra)
    (h : findColumn s cands = none) (hex : ∀ c ∈ cands, c ∉ extra) :
    findColumn s' cands = none := by
  rw [findColumn_none_iff] at h ⊢
  intro c hc
  rw [hcols, List.mem_append]
  rintro (hm | hm)
  · exact h c hc hm
  · exact hex c hc hm

lemma findColumn_some_append {s' s : Table} {cands extra : List String} {c : String}
    (hcols : s'.cols = s.cols ++ extra)
    (h : findColumn s cands = some c) (hex : ∀ c ∈ cands, c ∉ extra) :
    findColumn s' cands = some c := by
  unfold findColumn at h ⊢
  induction cands with
  | nil => simp [List.find?] at h
  | cons d ds ih =>
      have hd : hasCol s' d = hasCol s d := by
        cases hcol : hasCol s d with
        | true =>
            rw [hasCol_iff] at hcol ⊢
            rw [hcols, List.mem_append]
            exact Or.inl hcol
        | false =>
            cases hcol' : hasCol s' d with
            | false => rfl
            | true =>
                rw [hasCol_iff, hcols, List.mem_append] at hcol'
                rcases hcol' with hm | hm
                · exact absurd (hasCol_iff.mpr hm) (by simp [hcol])
                · exact absurd hm (hex d (by simp))
      simp only [List.find?, hd] at h ⊢
      cases hcol : hasCol s d with
      | true => simpa [hcol] using h
      | false =>
          simp only [hcol] at h ⊢
          exact ih h (fun c hc => hex c (by simp [hc]))

lemma getD_append_left {r : List CellV} (v : CellV) {i : Nat} (h : i < r.length) :
    (r ++ [v]).getD i none = r.getD i none := by
  simp [List.getD, List.getElem?_append_left h]

lemma zipWith_append_map_getCell {rows : List (List CellV)} {vals : List CellV}
    {i L : Nat} (hw : ∀ r ∈ rows, r.length = L) (hi : i < L)
    (hlen : vals.length = rows.length) :
    (rows.zipWith (fun r v => r ++ [v]) vals).map (fun r => getCell r i) =
      rows.map (fun r => getCell r i) := by
  induction rows generalizing vals with
  | nil => simp
  | cons r rs ih =>
      cases vals with
      | nil => simp at hlen
      | cons v vs =>
          simp only [List.zipWith, List.map_cons]
          congr 1
          · have hr : r.length = L := hw r (by simp)
            unfold getCell
            exact getD_append_left v (by omega)
          · exact ih (fun r hr => hw r (by simp [hr])) (by simpa using hlen)

lemma getColumn_setColumn_fresh {t : Table} (wf : t.WellFormed) {name : String}
    (hname : name ∉ t.cols) {vals : List CellV} (hlen : vals.length = t.rows.length)
    {n : String} (hn : n ∈ t.cols) :
    getColumn (setColumn t name vals) n = getColumn t n := by
  rw [setColumn, colIdx_eq_none_of_not_mem hname]
  unfold getColumn
  simp only
  rw [colIdx_append_left [name] hn]
  cases hidx : colIdx t.cols n with
  | none =>
      exact absurd (colIdx_isSome_iff.mpr hn) (by simp [hidx])
  | some i =>
      exact zipWith_append_map_getCell wf (colIdx_lt_length hidx) hlen

lemma zipWith_append_mem {rows : List (List CellV)} {vals : List CellV}
    {r' : List CellV} (h : r' ∈ rows.zipWith (fun r v => r ++ [v]) vals) :
    ∃ r ∈ rows, ∃ v, r' = r ++ [v] := by
  induction rows generalizing vals with
  | nil => simp at h
  | cons r0 rs ih =>
      cases vals with
      | nil => simp at h
      | cons v vs =>
          simp only [List.zipWith] at h
          rcases List.mem_cons.mp h with h | h
          · exact ⟨r0, by simp, v, h⟩
          · obtain ⟨r, hr, v', hv'⟩ := ih h
            exact ⟨r, by simp [hr], v', hv'⟩

lemma setColumn_fresh_wellFormed {t : Table} (wf : t.WellFormed) {name : String}
    (hname : name ∉ t.cols) {vals : List CellV} :
    (setColumn t name vals).WellFormed := by
  rw [setColumn, colIdx_eq_none_of_not_mem hname]
  intro r hr
  obtain ⟨r0, hr0, v, rfl⟩ := zipWith_append_mem hr
  have := wf r0 hr0
  simp [this]

lemma setColumn_fresh_rows_length {t : Table} {name : String}
    (hname : name ∉ t.cols) {vals : List CellV} (hlen : vals.length = t.rows.length) :
    (setColumn t name vals).rows.length = t.rows.length := by
  rw [setColumn, colIdx_eq_none_of_not_mem hname]
  simp [List.length_zipWith, hlen]

lemma getColumn_length_of_mem {t : Table} {n : String} (hn : n ∈ t.cols) :
    (getColumn t n).length = t.rows.length := by
  unfold getColumn
  cases hidx : colIdx t.cols n with
  | none => exact absurd (colIdx_isSome_iff.mpr hn) (by simp [hidx])
  | some i => simp

/-!
Bound lemmas for the accuracy scores.
-/

lemma totalVariation_nonneg (col : List CellV) (bench : List (String × ℚ)) :
    0 ≤ totalVariation col bench := by
  unfold totalVariation
  apply List.sum_nonneg
  intro x hx
  obtain ⟨bp, _, rfl⟩ := List.mem_map.mp hx
  exact abs_nonneg _

lemma categoricalResult_score_bounds (col : List CellV) (bench : List (String × ℚ))
    (th : ℚ) : 0 ≤ (categoricalResult col bench th).accuracy_score ∧
      (categoricalResult col bench th).accuracy_score ≤ 1 := by
  unfold categoricalResult
  refine ⟨le_max_left _ _, max_le (by norm_num) ?_⟩
  have := totalVariation_nonneg col bench
  have h2 : 0 ≤ totalVariation col bench / 2 := by positivity
  linarith

lemma compare_age_score_bounds (t : Table) :
    0 ≤ (compare_age_distribution t).1.accuracy_score ∧
      (compare_age_distribution t).1.accuracy_score ≤ 1 := by
  unfold compare_age_distribution
  cases h : findColumn t ageCandidates with
  | none => simp [notFoundResult]
  | some c => exact categoricalResult_score_bounds _ _ _

lemma compare_gender_score_bounds (t : Table) :
    0 ≤ (compare_gender_distribution t).accuracy_score ∧
      (compare_gender_distribution t).accuracy_score ≤ 1 := by
  unfold compare_gender_distribution
  cases h : findColumn t genderCandidates with
  | none => simp [notFoundResult]
  | some c => exact categoricalResult_score_bounds _ _ _

lemma compare_sector_score_bounds (t : Table) :
    0 ≤ (compare_sector_distribution t).accuracy_score ∧
      (compare_sector_distribution t).accuracy_score ≤ 1 := by
  unfold compare_sector_distribution
  cases h : findColumn t sectorCandidates with
  | none => simp [notFoundResult]
  | some c => exact categoricalResult_score_bounds _ _ _

lemma compare_status_score_bounds (t : Table) :
    0 ≤ (compare_status_distribution t).accuracy_score ∧
      (compare_status_distribution t).accuracy_score ≤ 1 := by
  unfold compare_status_distribution
  cases h : findColumn t statusCandidates with
  | none => simp [notFoundResult]
  | some c => exact categoricalResult_score_bounds _ _ _

lemma compare_service_score_bounds (t : Table) :
    0 ≤ (compare_service_patterns t).1.accuracy_score ∧
      (compare_service_patterns t).1.accuracy_score ≤ 1 := by
  unfold compare_service_patterns
  cases h : findColumn t serviceCandidates with
  | none => simp [notFoundResult]
  | some c => exact categoricalResult_score_bounds _ _ _

lemma geoTotalDiff_nonneg (t : Table) (c : String) : 0 ≤ geoTotalDiff t c := by
  unfold geoTotalDiff
  apply List.sum_nonneg
  intro x hx
  obtain ⟨s, _, rfl⟩ := List.mem_map.mp hx
  exact abs_nonneg _

lemma compare_geographic_score_bounds (t : Table) :
    0 ≤ (compare_geographic_distribution t).1.accuracy_score ∧
      (compare_geographic_distribution t).1.accuracy_score ≤ 1 := by
  unfold compare_geographic_distribution
  cases h : findColumn t postcodeCandidates with
  | none => simp
  | some c =>
      simp only
      by_cases hc : (geoCommon t c).length > 0
      · rw [if_pos hc]
        refine ⟨le_max_left _ _, max_le (by norm_num) ?_⟩
        have h1 := geoTotalDiff_nonneg t c
        have h2 : (0 : ℚ) ≤ ((geoCommon t c).length : ℚ) := by positivity
        have h3 : 0 ≤ geoTotalDiff t c / ((geoCommon t c).length : ℚ) := by positivity
        linarith
      · rw [if_neg hc]
        norm_num

lemma sector_accuracy_le_one (m mn mx : ℚ) {b : SalaryRange}
    (hmin : 0 < b.smin) (hmax : 0 < b.smax) (hmed : 0 < b.median) :
    sector_accuracy m mn mx b ≤ 1 := by
  unfold sector_accuracy median_accuracy range_accuracy
  have h1 : 0 ≤ |m - b.median| / b.median := by positivity
  have h2 : 0 ≤ |mn - b.smin| / b.smin := by positivity
  have h3 : 0 ≤ |mx - b.smax| / b.smax := by positivity
  linarith

lemma salaryScan_bounds (t : Table) (secIdx salIdx : Nat) (l : List SalaryRange)
    (hpos : ∀ b ∈ l, 0 < b.smin ∧ 0 < b.smax ∧ 0 < b.median) :
    (salaryScan t secIdx salIdx l).1 ≤ (l.length : ℚ) ∧
      ∀ e ∈ (salaryScan t secIdx salIdx l).2,
        0 ≤ e.2.accuracy_score ∧ e.2.accuracy_score ≤ 1 := by
  induction l with
  | nil => simp [salaryScan]
  | cons b bs ih =>
      obtain ⟨ihs, ihe⟩ := ih (fun x hx => hpos x (by simp [hx]))
      obtain ⟨hbmin, hbmax, hbmed⟩ := hpos b (by simp)
      unfold salaryScan
      by_cases hrows :
          (t.rows.filter (fun r => getCell r secIdx = some (.str b.sector))).length > 0
      · rw [if_pos hrows]
        constructor
        · have hle := sector_accuracy_le_one
            (medianQ
              ((t.rows.filter (fun r => getCell r secIdx = some (.str b.sector))).filterMap
                (fun r => numVal (getCell r salIdx))))
            (minQ ((t.rows.filter
              (fun r => getCell r secIdx = some (.str b.sector))).filterMap
              (fun r => numVal (getCell r salIdx))))
            (maxQ ((t.rows.filter
              (fun r => getCell r secIdx = some (.str b.sector))).filterMap
              (fun r => numVal (getCell r salIdx)))) hbmin hbmax hbmed
          simp only [List.length_cons]
          push_cast
          linarith
        · intro e he
          rcases List.mem_cons.mp he with he | he
          · subst he
            simp only
            constructor
            · exact le_max_left _ _
            · exact max_le (by norm_num)
                (sector_accuracy_le_one _ _ _ hbmin hbmax hbmed)
          · exact ihe e he
      · rw [if_neg hrows]
        refine ⟨?_, ihe⟩
        simp only [List.length_cons]
        push_cast
        linarith

lemma compare_salary_score_bounds (t : Table) :
    (0 ≤ (compare_salary_patterns t).overall_accuracy ∧
      (compare_salary_patterns t).overall_accuracy ≤ 1) ∧
    ∀ e ∈ (compare_salary_patterns t).sector_analysis,
      0 ≤ e.2.accuracy_score ∧ e.2.accuracy_score ≤ 1 := by
  unfold compare_salary_patterns
  split
  · split
    · rename_i secIdx salIdx _ _
      have hpos : ∀ b ∈ load_uk_pension_benchmarks.salary_ranges,
          0 < b.smin ∧ 0 < b.smax ∧ 0 < b.median := by decide
      obtain ⟨hsum, hent⟩ :=
        salaryScan_bounds t secIdx salIdx load_uk_pension_benchmarks.salary_ranges hpos
      refine ⟨⟨le_max_left _ _, max_le (by norm_num) ?_⟩, ?_⟩
      · rw [div_le_one (by norm_num [load_uk_pension_benchmarks])]
        simpa [load_uk_pension_benchmarks] using hsum
      · simpa using hent
    · simp
  · simp

/-!
Claim theorems.
-/

/-- C10: on every input table, every accuracy score a full comparison run
reports — each categorical category's `accuracy_score`, the salary
comparison's `overall_accuracy`, and every per-sector salary
`accuracy_score` — lies in the interval [0, 1], because each is produced
through `max 0 _` and its raw value never exceeds 1. -/
theorem accuracy_scores_in_unit_interval (t : Table) :
    (0 ≤ (compare_synthetic_vs_real t).detailed_comparisons.age.accuracy_score ∧
      (compare_synthetic_vs_real t).detailed_comparisons.age.accuracy_score ≤ 1) ∧
    (0 ≤ (compare_synthetic_vs_real t).detailed_comparisons.gender.accuracy_score ∧
      (compare_synthetic_vs_real t).detailed_comparisons.gender.accuracy_score ≤ 1) ∧
    (0 ≤ (compare_synthetic_vs_real t).detailed_comparisons.sector.accuracy_score ∧
      (compare_synthetic_vs_real t).detailed_comparisons.sector.accuracy_score ≤ 1) ∧
    (0 ≤ (compare_synthetic_vs_real t).detailed_comparisons.geographic.accuracy_score ∧
      (compare_synthetic_vs_real t).detailed_comparisons.geographic.accuracy_score ≤ 1) ∧
    (0 ≤ (compare_synthetic_vs_real t).detailed_comparisons.status.accuracy_score ∧
      (compare_synthetic_vs_real t).detailed_comparisons.status.accuracy_score ≤ 1) ∧
    (0 ≤ (compare_synthetic_vs_real t).detailed_comparisons.service.accuracy_score ∧
      (compare_synthetic_vs_real t).detailed_comparisons.service.accuracy_score ≤ 1) ∧
    (0 ≤ (compare_synthetic_vs_real t).detailed_comparisons.salary.overall_accuracy ∧
      (compare_synthetic_vs_real t).detailed_comparisons.salary.overall_accuracy ≤ 1) ∧
    ∀ e ∈ (compare_synthetic_vs_real t).detailed_comparisons.salary.sector_analysis,
      0 ≤ e.2.accuracy_score ∧ e.2.accuracy_score ≤ 1 :=
  ⟨compare_age_score_bounds _, compare_gender_score_bounds _,
   compare_sector_score_bounds _, compare_geographic_score_bounds _,
   compare_status_score_bounds _, compare_service_score_bounds _,
   (compare_salary_score_bounds _).1, (compare_salary_score_bounds _).2⟩

/-- C9: the per-sector salary accuracy is symmetric in the direction of the
median error: for every benchmark sector and relative error X ≥ 0, an
observed median of expected*(1+X) and one of expected*(1−X) give the same
`median_accuracy`, and with identical observed min and max the same
`sector_accuracy`. -/
theorem salary_accuracy_symmetric (b : SalaryRange)
    (hb : b ∈ load_uk_pension_benchmarks.salary_ranges) (X : ℚ) (hX : 0 ≤ X) :
    median_accuracy (b.median * (1 + X)) b.median =
      median_accuracy (b.median * (1 - X)) b.median ∧
    ∀ mn mx : ℚ, sector_accuracy (b.median * (1 + X)) mn mx b =
      sector_accuracy (b.median * (1 - X)) mn mx b := by
  have habs : |b.median * (1 + X) - b.median| = |b.median * (1 - X) - b.median| := by
    rw [show b.median * (1 + X) - b.median = b.median * X by ring,
        show b.median * (1 - X) - b.median = -(b.median * X) by ring, abs_neg]
  have hmed : median_accuracy (b.median * (1 + X)) b.median =
      median_accuracy (b.median * (1 - X)) b.median := by
    unfold median_accuracy
    rw [habs]
  refine ⟨hmed, fun mn mx => ?_⟩
  unfold sector_accuracy
  rw [hmed]

/-- C9 witness: the symmetry theorem instantiated at the Finance benchmark
sector and X = 1/10. -/
theorem salary_accuracy_symmetric_witness :
    median_accuracy ((45000 : ℚ) * (1 + 1/10)) 45000 =
      median_accuracy ((45000 : ℚ) * (1 - 1/10)) 45000 ∧
    ∀ mn mx : ℚ,
      sector_accuracy ((45000 : ℚ) * (1 + 1/10)) mn mx ⟨"Finance", 25000, 150000, 45000⟩ =
        sector_accuracy ((45000 : ℚ) * (1 - 1/10)) mn mx ⟨"Finance", 25000, 150000, 45000⟩ :=
  salary_accuracy_symmetric ⟨"Finance", 25000, 150000, 45000⟩ (by decide) (1/10)
    (by norm_num)

/-- C1 counterexample: a full comparison run on a concrete table computing
all seven category comparisons (with a nonzero salary accuracy) whose
overall realism score differs from the claimed weighted average that
includes the salary category with weight 0.25. -/
theorem overall_score_differs_from_claimed_formula :
    (compare_synthetic_vs_real fullTable).overall_realism_score ≠
      claimedOverallScore (compare_synthetic_vs_real fullTable).detailed_comparisons := by
  with_unfolding_all decide

/-- C1 amended: the overall realism score is the weighted average of the
age, gender, sector, geographic and status scores alone, renormalized by
their weight sum 0.75. The salary comparison never contributes: its result
dict stores the aggregate under `"overall_accuracy"` and has no
`"accuracy_score"` key, so `calculate_overall_realism_score` skips it (as
it skips service, which has no weight at all). -/
theorem overall_score_excludes_salary (cs : DetailedComparisons) :
    calculate_overall_realism_score cs =
      (0.20 * cs.age.accuracy_score + 0.15 * cs.gender.accuracy_score +
       0.20 * cs.sector.accuracy_score + 0.10 * cs.geographic.accuracy_score +
       0.10 * cs.status.accuracy_score) / 0.75 := by
  simp only [calculate_overall_realism_score, weights, List.foldl_cons, List.foldl_nil,
    lookupAccuracyScore]
  norm_num
  ring

/-- C2 counterexample: a table whose single postcode maps to one benchmark
region, on which the geographic accuracy (0.22) differs from the claimed
divide-by-2 total-variation formula (0.61). -/
theorem geo_score_differs_from_divide_by_two :
    (compare_geographic_distribution geoOneTable).1.accuracy_score ≠
      claimedGeoScore geoOneTable "Postcode" := by
  with_unfolding_all decide

/-- C2 amended: for every table with a postcode column and at least one
postcode mapping to a benchmark region, the geographic accuracy is
`max 0 (1 - total_diff / len(common_regions))`: the total difference over
the scored regions is divided by the number of scored regions, not by 2. -/
theorem geo_score_normalizes_by_region_count (t : Table) (c : String)
    (hc : findColumn t postcodeCandidates = some c)
    (hne : geoCommon t c ≠ []) :
    (compare_geographic_distribution t).1.accuracy_score =
      max 0 (1 - geoTotalDiff t c / ((geoCommon t c).length : ℚ)) := by
  have hlen : (geoCommon t c).length > 0 := List.length_pos.mpr hne
  simp only [compare_geographic_distribution, hc, if_pos hlen]

/-- C2 witness: the amended normalization theorem applied to the concrete
one-region table. -/
theorem geo_score_normalizes_by_region_count_witness :
    (compare_geographic_distribution geoOneTable).1.accuracy_score =
      max 0 (1 - geoTotalDiff geoOneTable "Postcode" /
        ((geoCommon geoOneTable "Postcode").length : ℚ)) :=
  geo_score_normalizes_by_region_count geoOneTable "Postcode" (by rfl)
    (by with_unfolding_all decide)

/-- C3 counterexample: a table with a gender column and zero rows, for
which the gender comparison's accuracy score is 0.5, not the claimed 0. -/
theorem empty_gender_score_not_zero :
    (compare_gender_distribution emptyGenderTable).accuracy_score ≠ 0 := by
  with_unfolding_all decide

/-- C3 amended: for a category whose column is present but whose observed
data has zero non-null rows, the gender and status comparisons return
accuracy_score `1 - (sum of the benchmark proportions)/2 = 0.5` (their
benchmarks sum to 1), `pass = false`, and no explicit empty-case
annotation (the `error` key is absent); no division by zero occurs since
the empty `value_counts` dict makes every observed fraction 0. -/
theorem empty_category_scores_half (t : Table) (cg cs : String)
    (hg : findColumn t genderCandidates = some cg)
    (hgz : nonNullCount (getColumn t cg) = 0)
    (hs : findColumn t statusCandidates = some cs)
    (hsz : nonNullCount (getColumn t cs) = 0) :
    compare_gender_distribution t =
      { accuracy_score := 1/2, passes_test := false, error := none } ∧
    compare_status_distribution t =
      { accuracy_score := 1/2, passes_test := false, error := none } := by
  have hfreqg : ∀ s, freqS (getColumn t cg) s = 0 := by
    intro s
    simp [freqS, freq, hgz]
  have hfreqs : ∀ s, freqS (getColumn t cs) s = 0 := by
    intro s
    simp [freqS, freq, hsz]
  constructor
  · simp only [compare_gender_distribution, hg, categoricalResult, totalVariation,
      load_uk_pension_benchmarks, List.map_cons, List.map_nil, List.sum_cons,
      List.sum_nil, hfreqg]
    norm_num [abs_of_nonneg, sup_eq_right]
  · simp only [compare_status_distribution, hs, categoricalResult, totalVariation,
      load_uk_pension_benchmarks, List.map_cons, List.map_nil, List.sum_cons,
      List.sum_nil, hfreqs]
    norm_num [abs_of_nonneg, sup_eq_right]

/-- C3 witness: the empty-category theorem applied to a concrete zero-row
table with gender and status columns. -/
theorem empty_category_scores_half_witness :
    compare_gender_distribution emptyGenderStatusTable =
      { accuracy_score := 1/2, passes_test := false, error := none } ∧
    compare_status_distribution emptyGenderStatusTable =
      { accuracy_score := 1/2, passes_test := false, error := none } :=
  empty_category_scores_half emptyGenderStatusTable "Gender" "Status"
    (by rfl) (by rfl) (by rfl) (by rfl)

/-- C4 counterexample: on the 100-row table whose gender shares are exactly
`{M: 0.49, F: 0.50, O: 0.01}`, the gender accuracy score is not 1.0 (the
benchmark is `{M: 0.52, F: 0.47, O: 0.01}`, so the score is 0.97). -/
theorem gender_scenario_score_not_one :
    (compare_gender_distribution genderTable).accuracy_score ≠ 1 := by
  with_unfolding_all decide

/-- C4 amended: for every table whose gender column has observed
proportions exactly `{M: 0.49, F: 0.50, O: 0.01}`, the gender comparison
returns accuracy_score = 0.97 and pass = true (0.97 exceeds the 0.9
threshold). -/
theorem gender_scenario_score (t : Table) (c : String)
    (hc : findColumn t genderCandidates = some c)
    (hm : freqS (getColumn t c) "M" = 0.49)
    (hf : freqS (getColumn t c) "F" = 0.50)
    (ho : freqS (getColumn t c) "O" = 0.01) :
    (compare_gender_distribution t).accuracy_score = 0.97 ∧
    (compare_gender_distribution t).passes_test = true := by
  have htv : totalVariation (getColumn t c)
      load_uk_pension_benchmarks.gender_distribution = 0.06 := by
    simp only [totalVariation, load_uk_pension_benchmarks, List.map_cons,
      List.map_nil, List.sum_cons, List.sum_nil, hm, hf, ho]
    norm_num [abs_of_nonpos, abs_of_nonneg]
  simp only [compare_gender_distribution, hc, categoricalResult, htv]
  norm_num

/-- C4 witness: the amended scenario theorem applied to the concrete
100-row table with exact shares 0.49/0.50/0.01. -/
theorem gender_scenario_score_witness :
    (compare_gender_distribution genderTable).accuracy_score = 0.97 ∧
    (compare_gender_distribution genderTable).passes_test = true :=
  gender_scenario_score genderTable "Gender" (by rfl)
    (by with_unfolding_all decide)
    (by with_unfolding_all decide)
    (by with_unfolding_all decide)

/-- C6 counterexample: a one-row dataset (age 40, 20 years of service) on
which the validator's service-years rule reports true although the claimed
`years_of_service ≤ age - 21` bound fails (20 > 19). -/
theorem service_rule_claim_false_on_slack_row :
    ¬ (service_years_check [slackRow] = true ↔
        ∀ r ∈ [slackRow], claimedServiceOK r) := by
  intro h
  have h20 : (20 : ℚ) ≤ 40 - 21 := by
    have := (h.mp (by with_unfolding_all decide)) slackRow (by simp) 20 40 rfl rfl
    exact this
  norm_num at h20

/-- C6 amended: on a dataset whose age and years-of-service fields are all
present (non-NaN), the validator's service-years rule reports true if and
only if every row satisfies `years_of_service ≤ age - 18` — the bound the
source uses, not `age - 21`. -/
theorem service_rule_is_age_minus_18 (d : List VRow)
    (h : ∀ r ∈ d, r.age.isSome ∧ r.yearsService.isSome) :
    service_years_check d = true ↔
      ∀ r ∈ d, ∀ y a : ℚ, r.yearsService = some y → r.age = some a → y ≤ a - 18 := by
  unfold service_years_check
  rw [List.all_eq_true]
  constructor
  · intro hall r hr y a hy ha
    have := hall r hr
    rw [hy, ha] at this
    simpa [nanLe] using this
  · intro hall r hr
    obtain ⟨ha, hy⟩ := h r hr
    obtain ⟨a, ha'⟩ := Option.isSome_iff_exists.mp ha
    obtain ⟨y, hy'⟩ := Option.isSome_iff_exists.mp hy
    have := hall r hr y a hy' ha'
    rw [hy', ha']
    simpa [nanLe] using this

/-- C6 witness: the amended rule theorem instantiated on the concrete
one-row dataset, whose single row satisfies `years ≤ age - 18`. -/
theorem service_rule_is_age_minus_18_witness :
    service_years_check [slackRow] = true ↔
      ∀ r ∈ [slackRow], ∀ y a : ℚ,
        r.yearsService = some y → r.age = some a → y ≤ a - 18 :=
  service_rule_is_age_minus_18 [slackRow] (by intro r hr; simp at hr; subst hr; simp [slackRow])

/-- C5 counterexample: the age comparator does not leave the caller's table
unchanged — on a one-row table it persists the derived `age_bin` column
into the input dataframe. -/
theorem age_comparator_mutates_table :
    (compare_age_distribution ageOnlyTable).2 ≠ ageOnlyTable := by
  with_unfolding_all decide

/-- C5 amended: the age, service and geography comparators do persist their
derived bucket columns into the caller's table (`age_bin`, `service_bin`,
`postcode_area` and `region` are appended), and hence so does a full
comparison run; no pre-existing column is removed or modified: for a
well-formed table not already carrying the derived names, the post-call
column list is the input's plus the derived names, and every pre-existing
column reads back unchanged. -/
theorem bucket_columns_persisted (t : Table) (wf : t.WellFormed)
    (h1 : "age_bin" ∉ t.cols) (h2 : "service_bin" ∉ t.cols)
    (h3 : "postcode_area" ∉ t.cols) (h4 : "region" ∉ t.cols) :
    (∀ c, findColumn t ageCandidates = some c →
      (compare_age_distribution t).2.cols = t.cols ++ ["age_bin"] ∧
      ∀ n ∈ t.cols, getColumn (compare_age_distribution t).2 n = getColumn t n) ∧
    (∀ c, findColumn t serviceCandidates = some c →
      (compare_service_patterns t).2.cols = t.cols ++ ["service_bin"] ∧
      ∀ n ∈ t.cols, getColumn (compare_service_patterns t).2 n = getColumn t n) ∧
    (∀ c, findColumn t postcodeCandidates = some c →
      (compare_geographic_distribution t).2.cols =
        t.cols ++ ["postcode_area", "region"] ∧
      ∀ n ∈ t.cols, getColumn (compare_geographic_distribution t).2 n = getColumn t n) := by
  refine ⟨?_, ?_, ?_⟩
  · intro c hc
    have hmem : c ∈ t.cols := findColumn_mem hc
    have hlen : ((getColumn t c).map ageBin).length = t.rows.length := by
      rw [List.length_map]
      exact getColumn_length_of_mem hmem
    simp only [compare_age_distribution, hc]
    exact ⟨setColumn_cols_of_not_mem h1 _,
      fun n hn => getColumn_setColumn_fresh wf h1 hlen hn⟩
  · intro c hc
    have hmem : c ∈ t.cols := findColumn_mem hc
    have hlen : ((getColumn t c).map serviceBin).length = t.rows.length := by
      rw [List.length_map]
      exact getColumn_length_of_mem hmem
    simp only [compare_service_patterns, hc]
    exact ⟨setColumn_cols_of_not_mem h2 _,
      fun n hn => getColumn_setColumn_fresh wf h2 hlen hn⟩
  · intro c hc
    have hmem : c ∈ t.cols := findColumn_mem hc
    have hlen : ((getColumn t c).map postcodeArea).length = t.rows.length := by
      rw [List.length_map]
      exact getColumn_length_of_mem hmem
    simp only [compare_geographic_distribution, hc]
    set t1 := setColumn t "postcode_area" ((getColumn t c).map postcodeArea) with ht1
    have ht1cols : t1.cols = t.cols ++ ["postcode_area"] :=
      setColumn_cols_of_not_mem h3 _
    have ht1wf : t1.WellFormed := setColumn_fresh_wellFormed wf h3
    have ht1rows : t1.rows.length = t.rows.length :=
      setColumn_fresh_rows_length h3 hlen
    have hreg1 : "region" ∉ t1.cols := by
      rw [ht1cols]
      simp only [List.mem_append, List.mem_singleton]
      rintro (hm | hm)
      · exact h4 hm
      · exact absurd hm (by decide)
    have hlen2 : (((getColumn t c).map postcodeArea).map regionOf).length =
        t1.rows.length := by
      rw [List.length_map, List.length_map, ht1rows]
      exact getColumn_length_of_mem hmem
    constructor
    · rw [setColumn_cols_of_not_mem hreg1 _, ht1cols, List.append_assoc]
      rfl
    · intro n hn
      have hn1 : n ∈ t1.cols := by
        rw [ht1cols]
        exact List.mem_append_left _ hn
      rw [getColumn_setColumn_fresh ht1wf hreg1 hlen2 hn1]
      exact getColumn_setColumn_fresh wf h3 hlen hn

/-- C5 witness: the persisted-columns theorem applied to the concrete
two-row full table, at the age comparator and the `Gender` column. -/
theorem bucket_columns_persisted_witness :
    (compare_age_distribution fullTable).2.cols = fullTable.cols ++ ["age_bin"] ∧
    getColumn (compare_age_distribution fullTable).2 "Gender" =
      getColumn fullTable "Gender" := by
  obtain ⟨ha, _, _⟩ := bucket_columns_persisted fullTable
    (by intro r hr; fin_cases hr <;> rfl)
    (by decide) (by decide) (by decide) (by decide)
  obtain ⟨hc, hv⟩ := ha "Age" (by rfl)
  exact ⟨hc, hv "Gender" (by decide)⟩

/-- C8: on any dataset passing all other validator rules but containing a
duplicated member id and a malformed postcode, exactly the rules
`no_duplicates` and `postcode_format` fail; the summary counts 10 of 12
checks as passed, so the success rate `passed_checks / total_checks`
equals 5/6. -/
theorem validator_scenario_two_failures (d : List VRow)
    (hdup : ¬ (d.map (fun r => r.memberId)).Nodup)
    (hpc : ∃ r ∈ d, postcodeFullMatch r.postcode = false)
    (hg : gender_distribution_check d = true)
    (ha : age_distribution_check d = true)
    (hsec : sector_distribution_check d = true)
    (hsal : salary_ranges_check d = true)
    (hsvc : service_years_check d = true)
    (hst : status_values_check d = true)
    (hmid : member_id_format_check d = true)
    (hgeo : major_cities_covered_check d = true)
    (hfin : finance_grades_check d = true)
    (hpub : public_grades_check d = true) :
    failedChecks d = ["postcode_format", "no_duplicates"] ∧
    passedChecks d = 10 ∧ totalChecks d = 12 ∧ successRate d = 5/6 := by
  have hpcf : postcode_format_check d = false := by
    obtain ⟨r, hr, hf⟩ := hpc
    cases hall : postcode_format_check d with
    | false => rfl
    | true =>
        have := List.all_eq_true.mp hall r hr
        rw [hf] at this
        exact absurd this (by simp)
  have hdupf : no_duplicates_check d = false := by
    unfold no_duplicates_check
    exact decide_eq_false hdup
  have hrate : successRate d = 5/6 := by
    unfold successRate passedChecks totalChecks allChecks
    rw [hg, ha, hsec, hsal, hsvc, hst, hmid, hpcf, hdupf, hgeo, hfin, hpub]
    norm_num
  refine ⟨?_, ?_, ?_, hrate⟩
  · unfold failedChecks allChecks
    rw [hg, ha, hsec, hsal, hsvc, hst, hmid, hpcf, hdupf, hgeo, hfin, hpub]
    rfl
  · unfold passedChecks allChecks
    rw [hg, ha, hsec, hsal, hsvc, hst, hmid, hpcf, hdupf, hgeo, hfin, hpub]
    rfl
  · rfl

/-- C8 witness: the scenario theorem applied to the concrete 100-row
dataset with one duplicated member id (row 99) and one malformed postcode
(row 8). -/
theorem validator_scenario_two_failures_witness :
    failedChecks scenarioData = ["postcode_format", "no_duplicates"] ∧
    passedChecks scenarioData = 10 ∧ totalChecks scenarioData = 12 ∧
    successRate scenarioData = 5/6 :=
  validator_scenario_two_failures scenarioData
    (by with_unfolding_all decide)
    (by with_unfolding_all decide)
    (by with_unfolding_all decide)
    (by with_unfolding_all decide)
    (by with_unfolding_all decide)
    (by with_unfolding_all decide)
    (by with_unfolding_all decide)
    (by with_unfolding_all decide)
    (by with_unfolding_all decide)
    (by with_unfolding_all decide)
    (by with_unfolding_all decide)
    (by with_unfolding_all decide)

lemma dropna_cols (t : Table) (subset : List String) : (dropna t subset).cols = t.cols :=
  rfl

lemma prepare_cols (t : Table) : (prepare t).cols = t.cols := by
  unfold prepare
  rw [dropna_cols]
  by_cases h : hasCol t "AnnualSalary"
  · simp only [h, if_true]
    exact setColumn_cols_of_mem (hasCol_iff.mp h) _
  · simp [h]

lemma compare_age_snd_cols (s : Table) :
    ∃ ex, (compare_age_distribution s).2.cols = s.cols ++ ex ∧
      ∀ x ∈ ex, x = "age_bin" := by
  unfold compare_age_distribution
  cases h : findColumn s ageCandidates with
  | none => exact ⟨[], by simp⟩
  | some c =>
      simp only
      rcases setColumn_cols_cases s "age_bin" ((getColumn s c).map ageBin) with hc | hc
      · exact ⟨[], by simp [hc]⟩
      · exact ⟨["age_bin"], by simp [hc]⟩

lemma compare_geo_snd_cols (s : Table) :
    ∃ ex, (compare_geographic_distribution s).2.cols = s.cols ++ ex ∧
      ∀ x ∈ ex, x = "postcode_area" ∨ x = "region" := by
  cases h : findColumn s postcodeCandidates with
  | none =>
      refine ⟨[], ?_, by simp⟩
      unfold compare_geographic_distribution
      rw [h]
      simp
  | some c =>
      have h2 : (compare_geographic_distribution s).2 =
          setColumn (setColumn s "postcode_area" ((getColumn s c).map postcodeArea))
            "region" (((getColumn s c).map postcodeArea).map regionOf) := by
        unfold compare_geographic_distribution
        rw [h]
      rw [h2]
      rcases setColumn_cols_cases s "postcode_area" ((getColumn s c).map postcodeArea)
        with hc1 | hc1 <;>
      rcases setColumn_cols_cases
        (setColumn s "postcode_area" ((getColumn s c).map postcodeArea)) "region"
        (((getColumn s c).map postcodeArea).map regionOf) with hc2 | hc2
      · refine ⟨[], ?_, by simp⟩
        rw [hc2, hc1]
        simp
      · refine ⟨["region"], ?_, by simp⟩
        rw [hc2, hc1]
      · refine ⟨["postcode_area"], ?_, by simp⟩
        rw [hc2, hc1]
      · refine ⟨["postcode_area", "region"], ?_, by simp⟩
        rw [hc2, hc1, List.append_assoc]
        rfl

/-- C7 counterexample: on the concrete table with every column except a
sector column, the full run's salary comparison is not computed normally —
it returns the "Salary or sector column not found" error marker, because
the salary comparison also requires the sector column. -/
theorem missing_sector_salary_not_normal :
    ¬ ((compare_synthetic_vs_real noSectorTable).detailed_comparisons.salary.error
        = none) := by
  with_unfolding_all decide

/-- C7 amended: on every table with no sector column (but with age, gender,
postcode, status and service columns), a full run returns the sector result
with accuracy 0, pass false and the explicit "Sector column not found"
marker, and the age, gender, geographic, status and service comparisons are
computed normally (no error marker, no exception) — but the salary
comparison is not: it returns the zero-score "Salary or sector column not
found" result, since it needs the sector column too. -/
theorem missing_sector_behavior (t : Table)
    (hsec : findColumn t sectorCandidates = none)
    (hage : ∃ c, findColumn t ageCandidates = some c)
    (hgen : ∃ c, findColumn t genderCandidates = some c)
    (hpost : ∃ c, findColumn t postcodeCandidates = some c)
    (hstat : ∃ c, findColumn t statusCandidates = some c)
    (hsvc : ∃ c, findColumn t serviceCandidates = some c) :
    (compare_synthetic_vs_real t).detailed_comparisons.sector =
      { accuracy_score := 0, passes_test := false,
        error := some "Sector column not found" } ∧
    (compare_synthetic_vs_real t).detailed_comparisons.salary =
      { overall_accuracy := 0, sector_analysis := [], passes_test := false,
        error := some "Salary or sector column not found" } ∧
    (compare_synthetic_vs_real t).detailed_comparisons.age.error = none ∧
    (compare_synthetic_vs_real t).detailed_comparisons.gender.error = none ∧
    (compare_synthetic_vs_real t).detailed_comparisons.geographic.error = none ∧
    (compare_synthetic_vs_real t).detailed_comparisons.status.error = none ∧
    (compare_synthetic_vs_real t).detailed_comparisons.service.error = none := by
  obtain ⟨ca, hage⟩ := hage
  obtain ⟨cg, hgen⟩ := hgen
  obtain ⟨cp, hpost⟩ := hpost
  obtain ⟨cst, hstat⟩ := hstat
  obtain ⟨csv, hsvc⟩ := hsvc
  have h0 : (prepare t).cols = t.cols := prepare_cols t
  have hage0 : findColumn (prepare t) ageCandidates = some ca := by
    rw [findColumn_congr h0]
    exact hage
  obtain ⟨ex1, hex1cols, hex1⟩ := compare_age_snd_cols (prepare t)
  have hx1 : ∀ (cands : List String), "age_bin" ∉ cands →
      ∀ c ∈ cands, c ∉ ex1 := by
    intro cands hnc c hc hm
    rw [hex1 c hm] at hc
    exact hnc hc
  have hsec1 : findColumn (compare_age_distribution (prepare t)).2 sectorCandidates
      = none := by
    refine findColumn_none_append hex1cols ?_ (hx1 _ (by decide))
    rw [findColumn_congr h0]
    exact hsec
  have hgen1 : findColumn (compare_age_distribution (prepare t)).2 genderCandidates
      = some cg := by
    refine findColumn_some_append hex1cols ?_ (hx1 _ (by decide))
    rw [findColumn_congr h0]
    exact hgen
  have hpost1 : findColumn (compare_age_distribution (prepare t)).2 postcodeCandidates
      = some cp := by
    refine findColumn_some_append hex1cols ?_ (hx1 _ (by decide))
    rw [findColumn_congr h0]
    exact hpost
  obtain ⟨ex2, hex2cols, hex2⟩ :=
    compare_geo_snd_cols (compare_age_distribution (prepare t)).2
  have hx2 : ∀ (cands : List String),
      "postcode_area" ∉ cands → "region" ∉ cands → ∀ c ∈ cands, c ∉ ex2 := by
    intro cands hn1 hn2 c hc hm
    rcases hex2 c hm with h | h <;> rw [h] at hc
    · exact hn1 hc
    · exact hn2 hc
  have hstat2 : findColumn
      (compare_geographic_distribution (compare_age_distribution (prepare t)).2).2
      statusCandidates = some cst := by
    refine findColumn_some_append hex2cols ?_ (hx2 _ (by decide) (by decide))
    refine findColumn_some_append hex1cols ?_ (hx1 _ (by decide))
    rw [findColumn_congr h0]
    exact hstat
  have hsvc2 : findColumn
      (compare_geographic_distribution (compare_age_distribution (prepare t)).2).2
      serviceCandidates = some csv := by
    refine findColumn_some_append hex2cols ?_ (hx2 _ (by decide) (by decide))
    refine findColumn_some_append hex1cols ?_ (hx1 _ (by decide))
    rw [findColumn_congr h0]
    exact hsvc
  refine ⟨?_, ?_, ?_, ?_, ?_, ?_, ?_⟩
  · show compare_sector_distribution _ = _
    rw [compare_sector_distribution, hsec1]
    rfl
  · show compare_salary_patterns _ = _
    cases hsal1 : findColumn (compare_age_distribution (prepare t)).2 salaryCandidates
      with
    | none => rw [compare_salary_patterns, hsal1]
    | some s => rw [compare_salary_patterns, hsal1, hsec1]
  · show (compare_age_distribution _).1.error = none
    rw [compare_age_distribution, hage0]
    rfl
  · show (compare_gender_distribution _).error = none
    rw [compare_gender_distribution, hgen1]
    rfl
  · show (compare_geographic_distribution _).1.error = none
    rw [compare_geographic_distribution, hpost1]
  · show (compare_status_distribution _).error = none
    rw [compare_status_distribution, hstat2]
    rfl
  · show (compare_service_patterns _).1.error = none
    rw [compare_service_patterns, hsvc2]
    rfl

/-- C7 witness: the missing-sector theorem applied to the concrete
sector-less two-row table. -/
theorem missing_sector_behavior_witness :
    (compare_synthetic_vs_real noSectorTable).detailed_comparisons.sector =
      { accuracy_score := 0, passes_test := false,
        error := some "Sector column not found" } ∧
    (compare_synthetic_vs_real noSectorTable).detailed_comparisons.salary =
      { overall_accuracy := 0, sector_analysis := [], passes_test := false,
        error := some "Salary or sector column not found" } ∧
    (compare_synthetic_vs_real noSectorTable).detailed_comparisons.age.error = none ∧
    (compare_synthetic_vs_real noSectorTable).detailed_comparisons.gender.error = none ∧
    (compare_synthetic_vs_real noSectorTable).detailed_comparisons.geographic.error
      = none ∧
    (compare_synthetic_vs_real noSectorTable).detailed_comparisons.status.error = none ∧
    (compare_synthetic_vs_real noSectorTable).detailed_comparisons.service.error
      = none :=
  missing_sector_behavior noSectorTable (by rfl)
    ⟨"Age", by rfl⟩ ⟨"Gender", by rfl⟩ ⟨"Postcode", by rfl⟩
    ⟨"Status", by rfl⟩ ⟨"YearsService", by rfl⟩

end TeamAlpha
